import Mathlib

/-!
Shallow embedding of the request-parsing framework and dialogue handlers of the
telegram-coronabot repository (src/coronabot/parse.py and src/coronabot/handlers.py).

External collaborators (the `dateparser` library, the regex request patterns, the
location/statistic catalogs) are parameters gathered in an `Env` structure, as the
spec treats them as external configuration.  Repository modules that are not part
of the sources (`location`, `dateinterval`, the catalog constants) are modelled
from the spec where a claim needs them; each such definition carries a doc comment
starting with `Modelled from the spec:`.
-/

/-- A single-quote character, used to build the user-facing Italian messages of
parse.py verbatim. -/
def apos : String := String.singleton (Char.ofNat 39)

/-- Wrap a string in single quotes, as the f-strings of parse.py do. -/
def squo (s : String) : String := apos ++ s ++ apos

/-- Python `str.lower()` restricted to the character-wise case mapping (the inputs
handled by the bot are plain text, for which `lower` is exactly per-character). -/
def pyLower (s : String) : String := String.mk (s.data.map Char.toLower)

/-- Python `str.replace(old, new)` for the single-character patterns used in
parse.py and handlers.py (`' '→'_'` and `'_'→' '`), where it is exactly a
character-wise substitution. -/
def pyReplaceChar (s : String) (a b : Char) : String :=
  String.mk (s.data.map fun c => if c = a then b else c)

/-- Code-point lexicographic order on character lists: Python's `<=` on strings. -/
def charsLe : List Char → List Char → Bool
  | [], _ => true
  | _ :: _, [] => false
  | a :: as1, b :: bs1 =>
    if a < b then true else if b < a then false else charsLe as1 bs1

/-- Python's `<=` on strings (code-point lexicographic). -/
def strLe (a b : String) : Bool := charsLe a.data b.data

/-- Insert into a sorted list, keeping it sorted (helper for `pySorted`). -/
def insertSorted (a : String) : List String → List String
  | [] => [a]
  | b :: bs => if strLe a b then a :: b :: bs else b :: insertSorted a bs

/-- Python `sorted` on a list of strings: ascending lexicographic order
(insertion sort, which is stable and total). -/
def pySorted : List String → List String
  | [] => []
  | x :: xs => insertSorted x (pySorted xs)

/-- Python `str.capitalize()`: first character upper-cased, the rest lower-cased. -/
def pyCapitalize (s : String) : String :=
  match s.data with
  | [] => ""
  | c :: cs => String.mk (c.toUpper :: cs.map Char.toLower)

/-- Modelled from the spec: the `location` module is repository code not under
src/.  The spec's data model gives `Location: { name: string, tier: one of
{country, region, province} }`; parse.py constructs it with the tier strings
`'stato'`, `'regione'`, `'provincia'`. -/
structure Location where
  name : String
  tier : String
deriving DecidableEq, Repr

/-- Modelled from the spec: the `dateinterval` module is repository code not under
src/.  The spec's data model gives `DateInterval: { start, end : calendar date }`;
calendar dates are abstract values produced by the external date resolver and are
represented by `Nat` codes. -/
structure DateInterval where
  istart : Nat
  iend : Nat
deriving DecidableEq, Repr

/-- Python values flowing through the parsers: conversion results are dates
(abstract codes from the external resolver), locations, statistic strings,
date intervals, or lists of partial results. -/
inductive Value where
  | str : String → Value
  | date : Nat → Value
  | loc : Location → Value
  | interval : DateInterval → Value
  | list : List Value → Value

/-- Outcome of `Parser.parse` on one string: `success v` (parse returned True and
`_result` holds `v`), `failure msg` (parse returned False and `error` holds `msg`),
or `fatal m` (a non-ConversionError exception with message `m` was raised during
`convert`, so parse raises `Parser.ParserError` instead of returning). -/
inductive Outcome where
  | success : Value → Outcome
  | failure : String → Outcome
  | fatal : String → Outcome

/-- Result of a `convert` method: a converted value, a `Parser.ConversionError`
whose args are `e`, or any other exception with message `m`. -/
inductive ConvResult (ε : Type) where
  | ok : Value → ConvResult ε
  | convErr : ε → ConvResult ε
  | exn : String → ConvResult ε

/-- `Parser.parse` (parse.py lines 37-59), seen through the outcome it leaves on
the instance: wrap `convert`, turning a `ConversionError` into a failure whose
message comes from `make_error_message`, and re-raising any other exception as a
`Parser.ParserError` (the `fatal` outcome, which keeps the original exception's
message as the recorded `error`). -/
def Parser.parse {ε : Type} (convert : String → ConvResult ε)
    (make_error_message : ε → String → String) (s : String) : Outcome :=
  match convert s with
  | .ok v => .success v
  | .convErr e => .failure (make_error_message e s)
  | .exn m => .fatal m

/-- The mutable attributes of a `Parser` instance (parse.py lines 18-22). -/
structure PState where
  _result : Option Value
  status : Bool
  error : Option String

/-- `Parser.__init__`: `_result = None`, `status = False`, `error = None`. -/
def Parser.init : PState := ⟨none, false, none⟩

/-- `Parser.result` property (parse.py lines 24-35): return `_result` only if
`status` is true, otherwise raise `Parser.ParserError`. -/
def PState.result (st : PState) : Except String (Option Value) :=
  if st.status = true then Except.ok st._result
  else Except.error "Cannot get results because an error occurred during conversion"

/-- `Parser.__bool__`: mirror the parser's `status`. -/
def PState.toBool (st : PState) : Bool := st.status

/-- The state-transforming view of `Parser.parse`: given the pure outcome
function `po` of the parser, update the instance attributes and either return the
status (`.ok b`) or raise `Parser.ParserError` (`.error`).  On success only
`_result` and `status` are written; on failure `error` receives the generated
message; on a fatal error `error` receives the original exception's args and the
raised `ParserError` carries the fixed text. -/
def Parser.run (po : String → Outcome) (st : PState) (s : String) :
    PState × Except String Bool :=
  match po s with
  | .success v => (⟨some v, true, st.error⟩, Except.ok true)
  | .failure m => (⟨st._result, false, some m⟩, Except.ok false)
  | .fatal m => (⟨st._result, false, some m⟩, Except.error "An error occurred during parsing")

/-- `Parser.__call__` (parse.py lines 82-84): run `parse` and return `None`,
discarding the boolean status that `parse` returns. -/
def Parser.call (po : String → Outcome) (st : PState) (s : String) :
    PState × Except String Unit :=
  let r := Parser.run po st s
  (r.1, r.2.map fun _ => ())

/-- Result of the field loop of `ComposedParser.convert` (parse.py lines 122-128):
all fields converted (`done`), a sub-parser failed so
`Parser.ConversionError(i, field, error)` is raised (`convErr`), or a sub-parser's
`parse` raised `Parser.ParserError`, which propagates (`exn`). -/
inductive FieldsRes where
  | done : List Value → FieldsRes
  | convErr : Nat × String × String → FieldsRes
  | exn : String → FieldsRes

/-- The `for i, (field, parser) in enumerate(zip(fields, self.subparsers))` loop of
`ComposedParser.convert` (parse.py lines 122-128): each sub-parser is a fresh
instance parsed on its field; on the first sub-parser whose `parse` returns False,
raise `Parser.ConversionError(i, field, parser_instance.error)`; if a sub-parser's
`parse` itself raises `Parser.ParserError` the exception propagates.  Like `zip`,
the loop stops at the shorter list (the caller has already checked the lengths are
equal).  `k` is the index of the first remaining field. -/
def ComposedParser.convertFields (k : Nat) :
    List String → List (String → Outcome) → FieldsRes
  | [], _ => .done []
  | _ :: _, [] => .done []
  | f :: fs, g :: gs =>
    match g f with
    | .fatal _ => .exn "An error occurred during parsing"
    | .failure m => .convErr (k, f, m)
    | .success v =>
      match ComposedParser.convertFields (k + 1) fs gs with
      | .done vs => .done (v :: vs)
      | r => r

/-- The default `ComposedParser.reduce` (parse.py lines 131-132): return the list
of partial results itself. -/
def ComposedParser.reduce (results : List Value) : Value := .list results

/-- `ComposedParser.convert` (parse.py lines 118-129): split the string, raise
`Parser.ParserError` on a field/sub-parser count mismatch (a non-ConversionError
exception, hence `exn`), then parse each field with its sub-parser, failing fast
with `ConversionError(i, field, error)`, and finally reduce the partial results.
A failing `split` (e.g. the unpacking `ValueError` when the request pattern does
not match) is the `.error` case of `split` and propagates as `exn`. -/
def ComposedParser.convert (split : String → Except String (List String))
    (subparsers : List (String → Outcome)) (reduce : List Value → Value)
    (s : String) : ConvResult (Nat × String × String) :=
  match split s with
  | .error m => .exn m
  | .ok fields =>
    if fields.length ≠ subparsers.length then
      .exn ("Cannot parse " ++ toString fields.length ++ " fields with " ++
        toString subparsers.length ++ " parsers.")
    else
      match ComposedParser.convertFields 0 fields subparsers with
      | .done results => .ok (reduce results)
      | .convErr e => .convErr e
      | .exn m => .exn m

/-- `ComposedParser.make_error_message` (parse.py lines 134-136): return the error
message generated by the subparser that raised it, `error.args[2]`. -/
def ComposedParser.make_error_message (e : Nat × String × String) (s : String) :
    String := e.2.2

/-- The external collaborators configuring the parsers (spec §6): the
natural-language date resolver (`dateparser.parse(string, languages=['it','en'])`,
returning an abstract date code or nothing), the catalogs from `constants`
(alias table, region set, province set, statistic keys), and the regex request
patterns, each represented by the groups `re.split` extracts when the pattern
matches exactly once (`none` when the match fails, in which case the tuple
unpacking in `split` raises `ValueError`). -/
structure Env where
  dateparser_parse : String → Option Nat
  location_aliases : List (String × String)
  regions : List String
  provinces : List String
  stats : List String
  report_request_split : String → Option (String × Option String)
  trend_request_split : String → Option (String × Option String × Option String)
  interval_split : String → Option (String × String)

/-- Modelled from the spec: `constants.country` lives in repository configuration
not under src/.  The spec fixes it through its end-to-end scenarios
(`Location{"italia", country}`, and the trend parser's omitted-location default
`'italia'` "defaults to the country"). -/
def country_constant : String := "italia"

/-- Modelled from the spec: `location.Location.resolve_alias` is repository code
not under src/.  The spec describes it as "an alias-substitution step (external
alias table, string → canonical string)": a string that has an alias is replaced
by its canonical form, any other string is returned unchanged. -/
def resolve_alias (s : String) (aliases : List (String × String)) : String :=
  match aliases.lookup s with
  | some c => c
  | none => s

/-- `DateParser.convert` (parse.py lines 141-145): delegate to the external
resolver; if it yields no date, raise `Parser.ConversionError(string)`. -/
def DateParser.convert (env : Env) (s : String) : ConvResult String :=
  match env.dateparser_parse s with
  | some d => .ok (.date d)
  | none => .convErr s

/-- `DateParser.make_error_message` (parse.py lines 147-150), built from
`error.args[0]`. -/
def DateParser.make_error_message (a : String) (s : String) : String :=
  "Non riconosco " ++ squo a ++ " come una data valida. Prova ad utilizzare " ++
  "termini più semplici, come " ++ squo "oggi" ++ ", " ++ squo "ieri" ++
  ", oppure insirisci la data per esteso come in " ++ squo "18 Luglio 2020" ++
  ".\n\nConsulta /help per ulteriori informazioni."

/-- `DateParser.parse`: the generic `Parser.parse` applied to this leaf. -/
def DateParser.parse (env : Env) : String → Outcome :=
  Parser.parse (DateParser.convert env) DateParser.make_error_message

/-- `LocationParser.convert` (parse.py lines 167-176): resolve aliases, then
classify the canonical string as the country, a region or a province, in that
order; otherwise raise `Parser.ConversionError` carrying the canonical string. -/
def LocationParser.convert (env : Env) (s : String) : ConvResult String :=
  let c := resolve_alias s env.location_aliases
  if c = country_constant then .ok (.loc ⟨c, "stato"⟩)
  else if c ∈ env.regions then .ok (.loc ⟨c, "regione"⟩)
  else if c ∈ env.provinces then .ok (.loc ⟨c, "provincia"⟩)
  else .convErr c

/-- `LocationParser.make_error_message` (parse.py lines 178-181), built from the
original input `string` (not from the canonical string in `error.args`). -/
def LocationParser.make_error_message (a : String) (s : String) : String :=
  "Non riconosco " ++ squo s ++ " come un luogo valido. Prova con il nome di " ++
  "una provincia, di una regione o con " ++ squo "Italia" ++
  ".\n\nConsulta /help per ulteriori informazioni."

/-- `LocationParser.parse`: the generic `Parser.parse` applied to this leaf. -/
def LocationParser.parse (env : Env) : String → Outcome :=
  Parser.parse (LocationParser.convert env) LocationParser.make_error_message

/-- `StatParser.convert` (parse.py lines 185-189): replace spaces by underscores
and check membership in the statistics catalog; on a miss raise
`Parser.ConversionError` carrying the original string. -/
def StatParser.convert (env : Env) (s : String) : ConvResult String :=
  let result := pyReplaceChar s ' ' '_'
  if result ∈ env.stats then .ok (.str (pyReplaceChar s ' ' '_'))
  else .convErr s

/-- `StatParser.make_error_message` (parse.py lines 191-192). -/
def StatParser.make_error_message (a : String) (s : String) : String :=
  "Non riconosco " ++ squo s ++ " come una statistica valida."

/-- `StatParser.parse`: the generic `Parser.parse` applied to this leaf. -/
def StatParser.parse (env : Env) : String → Outcome :=
  Parser.parse (StatParser.convert env) StatParser.make_error_message

/-- `IntervalParser.split` (parse.py lines 157-160): the two regex splits that
extract the start and end date of the interval; when the pattern does not match,
the tuple unpacking raises `ValueError`. -/
def IntervalParser.split (env : Env) (s : String) : Except String (List String) :=
  match env.interval_split s with
  | some (sdate, edate) => .ok [sdate, edate]
  | none => .error "ValueError"

/-- `IntervalParser.reduce` (parse.py lines 162-163):
`dateinterval.DateInterval(*partial_results)`.  The two sub-parsers are
`DateParser`s, so the results are exactly two dates; any other shape would be a
`TypeError` of the constructor and is unreachable here. -/
def IntervalParser.reduce (results : List Value) : Value :=
  match results with
  | [Value.date a, Value.date b] => Value.interval ⟨a, b⟩
  | _ => Value.list results

/-- The sub-parser list of `IntervalParser` (parse.py line 155): two fresh
`DateParser` instances, one per field. -/
def IntervalParser.subparsers (env : Env) : List (String → Outcome) :=
  [DateParser.parse env, DateParser.parse env]

/-- `IntervalParser.convert`: `ComposedParser.convert` with this parser's split,
sub-parsers and reduction. -/
def IntervalParser.convert (env : Env) : String → ConvResult (Nat × String × String) :=
  ComposedParser.convert (IntervalParser.split env) (IntervalParser.subparsers env)
    IntervalParser.reduce

/-- `IntervalParser.parse`: the generic `Parser.parse` applied to this composed
parser. -/
def IntervalParser.parse (env : Env) : String → Outcome :=
  Parser.parse (IntervalParser.convert env) ComposedParser.make_error_message

/-- `ReportRequestParser.split` (parse.py lines 201-205): split on the report
request pattern; an omitted date group defaults to `'oggi'`; a non-matching
pattern makes the tuple unpacking raise `ValueError`. -/
def ReportRequestParser.split (env : Env) (s : String) : Except String (List String) :=
  match env.report_request_split s with
  | none => .error "ValueError"
  | some (location, dateOpt) =>
    let date := match dateOpt with
      | none => "oggi"
      | some d => d
    .ok [location, date]

/-- The sub-parser list of `ReportRequestParser` (parse.py line 199). -/
def ReportRequestParser.subparsers (env : Env) : List (String → Outcome) :=
  [LocationParser.parse env, DateParser.parse env]

/-- `ReportRequestParser.convert`: `ComposedParser.convert` with this parser's
split, sub-parsers and the default (identity) reduction. -/
def ReportRequestParser.convert (env : Env) :
    String → ConvResult (Nat × String × String) :=
  ComposedParser.convert (ReportRequestParser.split env)
    (ReportRequestParser.subparsers env) ComposedParser.reduce

/-- `ReportRequestParser.parse`: the generic `Parser.parse` applied to this
composed parser. -/
def ReportRequestParser.parse (env : Env) : String → Outcome :=
  Parser.parse (ReportRequestParser.convert env) ComposedParser.make_error_message

/-- `TrendRequestParser.split` (parse.py lines 214-220): split on the trend
request pattern; an omitted location group defaults to `'italia'` and an omitted
interval group to `'24/02/2020 - oggi'`; a non-matching pattern makes the tuple
unpacking raise `ValueError`. -/
def TrendRequestParser.split (env : Env) (s : String) : Except String (List String) :=
  match env.trend_request_split s with
  | none => .error "ValueError"
  | some (stat, locOpt, intOpt) =>
    let location := match locOpt with
      | none => "italia"
      | some l => l
    let interval := match intOpt with
      | none => "24/02/2020 - oggi"
      | some i => i
    .ok [stat, location, interval]

/-- The sub-parser list of `TrendRequestParser` (parse.py line 212). -/
def TrendRequestParser.subparsers (env : Env) : List (String → Outcome) :=
  [StatParser.parse env, LocationParser.parse env, IntervalParser.parse env]

/-- `TrendRequestParser.convert`: `ComposedParser.convert` with this parser's
split, sub-parsers and the default (identity) reduction. -/
def TrendRequestParser.convert (env : Env) :
    String → ConvResult (Nat × String × String) :=
  ComposedParser.convert (TrendRequestParser.split env)
    (TrendRequestParser.subparsers env) ComposedParser.reduce

/-- `TrendRequestParser.parse`: the generic `Parser.parse` applied to this
composed parser. -/
def TrendRequestParser.parse (env : Env) : String → Outcome :=
  Parser.parse (TrendRequestParser.convert env) ComposedParser.make_error_message

/-- A parser shape: a leaf parser is a `convert` capability with its own
`make_error_message`; a composed parser is a split function, an ordered list of
sub-parser shapes (the classes from which fresh instances are constructed on
every invocation) and a reduction.  This is the recursive structure the spec
describes for arbitrarily nested composed parsers. -/
inductive PSpec where
  | leaf : (String → ConvResult String) → (String → String → String) → PSpec
  | composed : (String → Except String (List String)) → List PSpec →
      (List Value → Value) → PSpec

mutual

/-- `Parser.parse` of an arbitrarily nested parser shape: a leaf parses through
its own `convert`/`make_error_message`; a composed parser parses through
`ComposedParser.convert` over fresh instances of its sub-parsers and
`ComposedParser.make_error_message`. -/
def PSpec.parse : PSpec → String → Outcome
  | .leaf conv mk, s => Parser.parse conv mk s
  | .composed split subs red, s =>
    Parser.parse (ComposedParser.convert split (PSpec.parses subs) red)
      ComposedParser.make_error_message s

/-- The parse functions of a list of sub-parser shapes, in order. -/
def PSpec.parses : List PSpec → List (String → Outcome)
  | [] => []
  | p :: ps => (fun s => PSpec.parse p s) :: PSpec.parses ps

end

/-- `q` is a node of the parser tree `p` (`q` itself, or a node of one of the
sub-parsers of a composed parser). -/
inductive PSpec.Subtree : PSpec → PSpec → Prop
  | refl (p : PSpec) : PSpec.Subtree p p
  | inComposed {q sub : PSpec} {split : String → Except String (List String)}
      {subs : List PSpec} {red : List Value → Value} :
      sub ∈ subs → PSpec.Subtree q sub → PSpec.Subtree q (.composed split subs red)


/-- The conversation states of handlers.py line 17:
`HOME, TRENDS, REPORTS, ERROR = range(4)`. -/
def HOME : Nat := 0

/-- Conversation state `TRENDS` (handlers.py line 17). -/
def TRENDS : Nat := 1

/-- Conversation state `REPORTS` (handlers.py line 17). -/
def REPORTS : Nat := 2

/-- A payload sent back to the chat: a text message or a photo with caption. -/
inductive Sent where
  | msg : String → Sent
  | photo : String → String → Sent

/-- What a handler callback does: return a value (the list of payloads it sent,
and the next conversation state — `none` models Python's bare `return`/`None`),
or let an exception escape to the error handler. -/
inductive HandlerRes where
  | ret : List Sent → Option Nat → HandlerRes
  | exn : String → HandlerRes

/-- Result of the external `core.plot_trend` collaborator: a rendered graph, or
the `KeyError` whose first arg is the set of statistic keys that are available
for the requested location. -/
inductive PlotResult where
  | ok : String → PlotResult
  | keyError : List String → PlotResult

/-- The collaborators of the trends handler: the parser environment, the external
plotting function, Python's `str()` on the interpolated parse results (the
`Location.__str__` of the repository's `location` module, outside src/, is left
abstract), and `constants.bot_username`. -/
structure BotEnv where
  penv : Env
  plot_trend : Value → Value → Value → PlotResult
  str_of : Value → String
  bot_username : String

/-- The `available_stats` text of `cb_trends_request` (handlers.py lines 249-250):
`', '.join(sorted(map(lambda s: s.replace('_', ' ').capitalize(), e.args[0])))`. -/
def availableStatsText (args0 : List String) : String :=
  String.intercalate ", "
    (pySorted (args0.map fun t => pyCapitalize (pyReplaceChar t '_' ' ')))

/-- The "statistic not available" message of `cb_trends_request` (handlers.py
lines 251-256); note the missing space between the two f-string fragments
(`"...Protezione Civile" "sulle province..."`). -/
def notAvailableMessage (stat location : String) (avail : List String) : String :=
  "Non ci sono dati su " ++ squo stat ++ " per " ++ squo location ++
  ". Ricorda che i dati pubblicati dalla Protezione Civile" ++
  "sulle province, regioni e lo stato sono diversi.\n\nI dati disponibili per " ++
  squo location ++ " sono: " ++ availableStatsText avail ++ "."

/-- The caption of the graph photo (handlers.py lines 259-261). -/
def graphCaption (bot_username : String) : String :=
  "Grafico generato da " ++ bot_username ++
  ".\n\n_Richiedi altri andamenti oppure usa /home per tornare al menu principale._"

/-- `cb_trends_request` (handlers.py lines 239-264): lower-case the text, run a
fresh `TrendRequestParser` on it; on success unpack the result triple and call
`core.plot_trend`, answering a `KeyError` with the available-statistics message
and a bare `return` (state `none`), otherwise sending the graph photo; on parse
failure send `parser.error` (which a failed parse always sets, so the `getD` is
never the default); finally `return TRENDS`. -/
def cb_trends_request (benv : BotEnv) (text : String) : HandlerRes :=
  let request := pyLower text
  let pr := Parser.run (TrendRequestParser.parse benv.penv) Parser.init request
  match pr.2 with
  | .error m => .exn m
  | .ok _ =>
    let st := pr.1
    if st.status = true then
      match st.result with
      | .ok (some (Value.list [stat, location, interval])) =>
        match benv.plot_trend stat location interval with
        | .keyError avail =>
          .ret [Sent.msg (notAvailableMessage (benv.str_of stat)
            (benv.str_of location) avail)] none
        | .ok graph =>
          .ret [Sent.photo graph (graphCaption benv.bot_username)] (some TRENDS)
      | _ =>
        -- `stat, location, interval = parser.result` on a value that is not a
        -- 3-element list raises; unreachable, since a successful trend parse
        -- always reduces to the 3-element list of partial results.
        .exn "cannot unpack"
    else
      .ret [Sent.msg (st.error.getD "")] (some TRENDS)

/-- A small concrete configuration used to evaluate the theorems on closed
inputs: a resolver knowing `ieri`/`oggi`/`24/02/2020`, one region, one province,
two statistics, and request patterns matching a handful of requests. -/
def envW : Env where
  dateparser_parse := fun t =>
    if t = "ieri" then some 1 else if t = "oggi" then some 2
    else if t = "24/02/2020" then some 3 else none
  location_aliases := []
  regions := ["lombardia"]
  provinces := ["roma"]
  stats := ["totale_positivi", "nuovi_positivi"]
  report_request_split := fun t =>
    if t = "roma, ieri" then some ("roma", some "ieri")
    else if t = "roma" then some ("roma", none) else none
  trend_request_split := fun t =>
    if t = "totale positivi, marte, ieri - oggi" then
      some ("totale positivi", some "marte", some "ieri - oggi")
    else if t = "totale positivi, italia, ieri - oggi" then
      some ("totale positivi", some "italia", some "ieri - oggi")
    else if t = "totale positivi" then some ("totale positivi", none, none)
    else none
  interval_split := fun t =>
    if t = "ieri - oggi" then some ("ieri", "oggi") else none

/-- `envW` with an empty statistics catalog; the location catalogs are
unchanged. -/
def envNoStats : Env := { envW with stats := [] }

/-- Trends-handler collaborators whose plot call reports the statistic as
unavailable for the location. -/
def benvKey : BotEnv where
  penv := envW
  plot_trend := fun _ _ _ => PlotResult.keyError ["nuovi_positivi"]
  str_of := fun _ => "X"
  bot_username := "@bot"

/-- Trends-handler collaborators whose plot call succeeds. -/
def benvOk : BotEnv where
  penv := envW
  plot_trend := fun _ _ _ => PlotResult.ok "GRAPH"
  str_of := fun _ => "X"
  bot_username := "@bot"

/-- A sub-parser that fails on every input with message `boom`. -/
def gFailW : String → Outcome := fun _ => Outcome.failure "boom"

/-- A sub-parser that succeeds on every input. -/
def gOkW : String → Outcome := fun _ => Outcome.success (Value.str "x")

/-- A split yielding two fields on every input. -/
def splitW : String → Except String (List String) := fun _ => Except.ok ["a", "b"]

/-- A leaf `convert` that always raises `ConversionError` carrying its input. -/
def convW : String → ConvResult String := fun t => ConvResult.convErr t

/-- A leaf `make_error_message` for `convW`. -/
def mkW : String → String → String := fun a _ => "bad " ++ a

/-- A composed parser over the single leaf `(convW, mkW)`, whose split yields one
field. -/
def pW : PSpec :=
  .composed (fun _ => Except.ok ["campo"]) [.leaf convW mkW] ComposedParser.reduce

/-- Fail-fast behaviour of the field loop: if the fields at indices below `i` all
parse successfully and the field at `i` fails with message `msg`, the loop stops
there with `ConversionError (k + i, field, msg)` (where `k` is the index offset of
the first remaining field). -/
theorem ComposedParser.convertFields_fail :
    ∀ (i : Nat) (fs : List String) (gs : List (String → Outcome)) (k : Nat)
      (f : String) (g : String → Outcome) (msg : String),
      fs[i]? = some f → gs[i]? = some g →
      (∀ j, j < i → ∃ fj gj v, fs[j]? = some fj ∧ gs[j]? = some gj ∧
        gj fj = Outcome.success v) →
      g f = Outcome.failure msg →
      ComposedParser.convertFields k fs gs = .convErr (k + i, f, msg) := by
  intro i
  induction i with
  | zero =>
    intro fs gs k f g msg hf hg _ hfail
    match fs, gs with
    | [], _ => simp at hf
    | _ :: _, [] => simp at hg
    | f0 :: fs', g0 :: gs' =>
      simp only [List.getElem?_cons_zero, Option.some.injEq] at hf hg
      subst hf; subst hg
      simp [ComposedParser.convertFields, hfail]
  | succ n ih =>
    intro fs gs k f g msg hf hg hbefore hfail
    match fs, gs with
    | [], _ => simp at hf
    | _ :: _, [] => simp at hg
    | f0 :: fs', g0 :: gs' =>
      obtain ⟨fj, gj, v, hfj, hgj, hsucc⟩ := hbefore 0 (Nat.succ_pos n)
      simp only [List.getElem?_cons_zero, Option.some.injEq] at hfj hgj
      subst hfj; subst hgj
      have hrec := ih fs' gs' (k + 1) f g msg (by simpa using hf) (by simpa using hg)
        (fun j hj => by
          obtain ⟨a, b, v', h1, h2, h3⟩ := hbefore (j + 1) (Nat.succ_lt_succ hj)
          exact ⟨a, b, v', by simpa using h1, by simpa using h2, h3⟩) hfail
      have harith : k + 1 + n = k + (n + 1) := by omega
      simp [ComposedParser.convertFields, hsucc, hrec, harith]

/-- Inversion of `Parser.parse` on a failure: the `convert` raised a
`ConversionError` and the message came from `make_error_message`. -/
theorem Parser.parse_failure_inv {ε : Type} (conv : String → ConvResult ε)
    (mk : ε → String → String) (s m : String)
    (h : Parser.parse conv mk s = Outcome.failure m) :
    ∃ e, conv s = ConvResult.convErr e ∧ m = mk e s := by
  unfold Parser.parse at h
  cases hc : conv s <;> rw [hc] at h <;> dsimp only at h
  case ok v => exact absurd h (by simp)
  case convErr e => exact ⟨e, rfl, by injection h with h1; exact h1.symm⟩
  case exn m2 => exact absurd h (by simp)

/-- Inversion of the field loop on a `ConversionError`: the failing message is
some sub-parser's own failure message on its field, verbatim. -/
theorem ComposedParser.convertFields_convErr_inv :
    ∀ (fs : List String) (gs : List (String → Outcome)) (k i : Nat)
      (f m : String),
      ComposedParser.convertFields k fs gs = .convErr (i, f, m) →
      ∃ g, g ∈ gs ∧ g f = Outcome.failure m := by
  intro fs
  induction fs with
  | nil => intro gs k i f m h; simp [ComposedParser.convertFields] at h
  | cons f0 fs' ih =>
    intro gs k i f m h
    match gs with
    | [] => simp [ComposedParser.convertFields] at h
    | g0 :: gs' =>
      rw [ComposedParser.convertFields] at h
      cases h0 : g0 f0 <;> rw [h0] at h <;> dsimp only at h
      case success v =>
        cases hrec : ComposedParser.convertFields (k + 1) fs' gs' <;>
            rw [hrec] at h <;> dsimp only at h
        case done vs => exact absurd h (by simp)
        case convErr e =>
          have he : e = (i, f, m) := by injection h
          obtain ⟨g, hg, hgf⟩ := ih gs' (k + 1) i f m (by rw [hrec, he])
          exact ⟨g, List.mem_cons_of_mem _ hg, hgf⟩
        case exn m2 => exact absurd h (by simp)
      case failure m0 =>
        have h1 : k = i ∧ f0 = f ∧ m0 = m := by simpa using h
        obtain ⟨hk, hf, hm⟩ := h1
        subst hf; subst hm
        exact ⟨g0, List.mem_cons_self _ _, h0⟩
      case fatal m0 => exact absurd h (by simp)

/-- Inversion of `ComposedParser.convert` on a `ConversionError`: the message is
some sub-parser's own failure message on its field, verbatim. -/
theorem ComposedParser.convert_convErr_inv
    (split : String → Except String (List String))
    (gs : List (String → Outcome)) (red : List Value → Value)
    (s : String) (i : Nat) (f m : String)
    (h : ComposedParser.convert split gs red s = .convErr (i, f, m)) :
    ∃ g, g ∈ gs ∧ g f = Outcome.failure m := by
  unfold ComposedParser.convert at h
  cases hs : split s <;> rw [hs] at h <;> dsimp only at h
  case error m2 => exact absurd h (by simp)
  case ok fields =>
    by_cases hlen : fields.length ≠ gs.length
    · rw [if_pos hlen] at h; exact absurd h (by simp)
    · rw [if_neg hlen] at h
      cases hrec : ComposedParser.convertFields 0 fields gs <;> rw [hrec] at h <;>
          dsimp only at h
      · exact absurd h (by simp)
      · rename_i e
        have he : e = (i, f, m) := by injection h
        exact ComposedParser.convertFields_convErr_inv fields gs 0 i f m
          (by rw [hrec, he])
      · exact absurd h (by simp)

/-- Membership in `PSpec.parses`: every sub-parse function is the parse of one of
the sub-parser shapes. -/
theorem PSpec.parses_mem (g : String → Outcome) :
    ∀ (subs : List PSpec), g ∈ PSpec.parses subs →
    ∃ sub, sub ∈ subs ∧ g = fun s => PSpec.parse sub s := by
  intro subs
  induction subs with
  | nil => intro h; simp [PSpec.parses] at h
  | cons p ps ih =>
    intro h
    rw [PSpec.parses] at h
    rcases List.mem_cons.mp h with h1 | h1
    · exact ⟨p, List.mem_cons_self _ _, h1⟩
    · obtain ⟨sub, hs, he⟩ := ih h1
      exact ⟨sub, List.mem_cons_of_mem _ hs, he⟩

/-- Every `Failure` outcome of an arbitrarily nested parser carries, character for
character, the `make_error_message` output of a failing leaf parser somewhere in
the tree (proved by strong induction on the size of the tree). -/
theorem PSpec.failure_from_leaf (n : Nat) :
    ∀ (p : PSpec), sizeOf p ≤ n → ∀ (s m : String),
    PSpec.parse p s = Outcome.failure m →
    ∃ conv mk t a, PSpec.Subtree (PSpec.leaf conv mk) p ∧
      conv t = ConvResult.convErr a ∧ m = mk a t ∧
      PSpec.parse (PSpec.leaf conv mk) t = Outcome.failure m := by
  induction n with
  | zero =>
    intro p hp
    exfalso
    cases p <;> simp at hp
  | succ n ih =>
    intro p hp s m h
    cases p with
    | leaf conv mk =>
      rw [PSpec.parse] at h
      obtain ⟨a, ha, hm⟩ := Parser.parse_failure_inv conv mk s m h
      exact ⟨conv, mk, s, a, .refl _, ha, hm, by rw [PSpec.parse, Parser.parse, ha, hm]⟩
    | composed split subs red =>
      rw [PSpec.parse] at h
      obtain ⟨e, he, hm⟩ := Parser.parse_failure_inv _ _ s m h
      obtain ⟨i, f, m'⟩ := e
      have hm' : m = m' := hm
      subst hm'
      obtain ⟨g, hgmem, hgf⟩ := ComposedParser.convert_convErr_inv split
        (PSpec.parses subs) red s i f m he
      obtain ⟨sub, hsubmem, rfl⟩ := PSpec.parses_mem g subs hgmem
      have hsize : sizeOf sub ≤ n := by
        have h1 := List.sizeOf_lt_of_mem hsubmem
        have h2 : sizeOf (PSpec.composed split subs red) =
            1 + sizeOf split + sizeOf subs + sizeOf red := by simp
        omega
      obtain ⟨conv, mk, t, a, hsub, hconv, hmk, hparse⟩ := ih sub hsize f m hgf
      exact ⟨conv, mk, t, a, .inComposed hsubmem hsub, hconv, hmk, hparse⟩

/-- A split yielding one field on every input (for evaluating the mismatch
behaviour on a closed input). -/
def splitW1 : String → Except String (List String) := fun _ => Except.ok ["a"]

/-- C1: for every composed parser and every input string whose split yields as
many fields as there are sub-parsers, if the sub-parser at zero-based index `i`
is the first to fail, then `convert` raises a `ConversionError` whose args are
exactly `(i, the field text at index i, that sub-parser's error message
verbatim)`; and the result is unchanged under any replacement of the sub-parsers
at indices greater than `i`, i.e. no such sub-parser is ever invoked. -/
theorem spec_c1 (split : String → Except String (List String))
    (gs : List (String → Outcome)) (red : List Value → Value)
    (s : String) (fields : List String) (i : Nat) (f : String)
    (g : String → Outcome) (msg : String)
    (hsplit : split s = Except.ok fields)
    (hlen : fields.length = gs.length)
    (hf : fields[i]? = some f) (hg : gs[i]? = some g)
    (hbefore : ∀ j, j < i → ∃ fj gj v, fields[j]? = some fj ∧ gs[j]? = some gj ∧
      gj fj = Outcome.success v)
    (hfail : g f = Outcome.failure msg) :
    ComposedParser.convert split gs red s = ConvResult.convErr (i, f, msg) ∧
    ∀ gs' : List (String → Outcome), gs'.length = gs.length →
      (∀ j, j ≤ i → gs'[j]? = gs[j]?) →
      ComposedParser.convert split gs' red s = ConvResult.convErr (i, f, msg) := by
  constructor
  · have hloop := ComposedParser.convertFields_fail i fields gs 0 f g msg hf hg
      hbefore hfail
    unfold ComposedParser.convert
    rw [hsplit]
    dsimp only
    rw [if_neg (by omega), hloop]
    simp
  · intro gs' hlen' hagree
    have hg' : gs'[i]? = some g := by rw [hagree i le_rfl, hg]
    have hbefore' : ∀ j, j < i → ∃ fj gj v, fields[j]? = some fj ∧
        gs'[j]? = some gj ∧ gj fj = Outcome.success v := by
      intro j hj
      obtain ⟨fj, gj, v, h1, h2, h3⟩ := hbefore j hj
      exact ⟨fj, gj, v, h1, by rw [hagree j (le_of_lt hj), h2], h3⟩
    have hloop := ComposedParser.convertFields_fail i fields gs' 0 f g msg hf hg'
      hbefore' hfail
    unfold ComposedParser.convert
    rw [hsplit]
    dsimp only
    rw [if_neg (by omega), hloop]
    simp

/-- Witness for C1 on a closed instance: a two-sub-parser composed parser whose
first sub-parser fails with message `boom` on field `a`. -/
theorem spec_c1_witness :
    splitW "s" = Except.ok ["a", "b"] ∧
    (["a", "b"] : List String).length = [gFailW, gOkW].length ∧
    (["a", "b"] : List String)[0]? = some "a" ∧
    [gFailW, gOkW][0]? = some gFailW ∧
    gFailW "a" = Outcome.failure "boom" ∧
    ComposedParser.convert splitW [gFailW, gOkW] ComposedParser.reduce "s" =
      ConvResult.convErr (0, "a", "boom") :=
  ⟨rfl, rfl, rfl, rfl, rfl,
    (spec_c1 splitW [gFailW, gOkW] ComposedParser.reduce "s" ["a", "b"] 0 "a"
      gFailW "boom" rfl rfl rfl rfl (fun j hj => absurd hj (Nat.not_lt_zero j))
      rfl).1⟩

/-- C3: a field/sub-parser count mismatch makes `convert` raise the distinct
`Parser.ParserError` (not a `ConversionError`), and `parse` re-raises it: the
run's return channel is the propagated exception, not a recoverable `False`
status with a user-facing failure message; likewise any non-`ConversionError`
exception raised during `convert` propagates out of `parse` the same way. -/
theorem spec_c3 :
    (∀ (split : String → Except String (List String))
       (gs : List (String → Outcome)) (red : List Value → Value)
       (s : String) (fields : List String) (st : PState),
       split s = Except.ok fields → fields.length ≠ gs.length →
       ComposedParser.convert split gs red s =
         ConvResult.exn ("Cannot parse " ++ toString fields.length ++
           " fields with " ++ toString gs.length ++ " parsers.") ∧
       Parser.run (Parser.parse (ComposedParser.convert split gs red)
           ComposedParser.make_error_message) st s =
         (⟨st._result, false, some ("Cannot parse " ++ toString fields.length ++
           " fields with " ++ toString gs.length ++ " parsers.")⟩,
          Except.error "An error occurred during parsing")) ∧
    (∀ (ε : Type) (conv : String → ConvResult ε) (mk : ε → String → String)
       (st : PState) (s m : String),
       conv s = ConvResult.exn m →
       Parser.run (Parser.parse conv mk) st s =
         (⟨st._result, false, some m⟩,
          Except.error "An error occurred during parsing")) := by
  constructor
  · intro split gs red s fields st hsplit hlen
    have hconv : ComposedParser.convert split gs red s =
        ConvResult.exn ("Cannot parse " ++ toString fields.length ++
          " fields with " ++ toString gs.length ++ " parsers.") := by
      unfold ComposedParser.convert
      rw [hsplit]
      dsimp only
      rw [if_pos hlen]
    exact ⟨hconv, by simp [Parser.run, Parser.parse, hconv]⟩
  · intro ε conv mk st s m hconv
    simp [Parser.run, Parser.parse, hconv]

/-- Witness for C3 on a closed instance: one field against two sub-parsers. -/
theorem spec_c3_witness :
    splitW1 "s" = Except.ok ["a"] ∧
    (["a"] : List String).length ≠ [gOkW, gOkW].length ∧
    ComposedParser.convert splitW1 [gOkW, gOkW] ComposedParser.reduce "s" =
      ConvResult.exn "Cannot parse 1 fields with 2 parsers." :=
  ⟨rfl, by decide,
    (spec_c3.1 splitW1 [gOkW, gOkW] ComposedParser.reduce "s" ["a"] Parser.init
      rfl (by decide)).1⟩

/-- C4: the `result` accessor returns the stored conversion value exactly when
the most recent parse succeeded (`status` true) and raises `Parser.ParserError`
in every other case — after a failed parse, after a fatal parse, and on a
freshly initialized parser on which parse never ran. -/
theorem spec_c4 :
    Parser.init.status = false ∧
    Parser.init.result =
      Except.error "Cannot get results because an error occurred during conversion" ∧
    (∀ st : PState, st.status = true → st.result = Except.ok st._result) ∧
    (∀ st : PState, st.status = false → st.result =
      Except.error "Cannot get results because an error occurred during conversion") ∧
    (∀ (po : String → Outcome) (st : PState) (s : String) (v : Value),
      po s = Outcome.success v →
      ((Parser.run po st s).1).result = Except.ok (some v)) ∧
    (∀ (po : String → Outcome) (st : PState) (s m : String),
      po s = Outcome.failure m → ((Parser.run po st s).1).result =
        Except.error "Cannot get results because an error occurred during conversion") ∧
    (∀ (po : String → Outcome) (st : PState) (s m : String),
      po s = Outcome.fatal m → ((Parser.run po st s).1).result =
        Except.error "Cannot get results because an error occurred during conversion") := by
  refine ⟨rfl, rfl, ?_, ?_, ?_, ?_, ?_⟩
  · intro st h; simp [PState.result, h]
  · intro st h; simp [PState.result, h]
  · intro po st s v h; simp [Parser.run, h, PState.result]
  · intro po st s m h; simp [Parser.run, h, PState.result]
  · intro po st s m h; simp [Parser.run, h, PState.result]

/-- Witness for C4 on a closed instance: a successful date parse exposes its
value through `result`. -/
theorem spec_c4_witness :
    DateParser.parse envW "ieri" = Outcome.success (Value.date 1) ∧
    ((Parser.run (DateParser.parse envW) Parser.init "ieri").1).result =
      Except.ok (some (Value.date 1)) :=
  ⟨rfl, spec_c4.2.2.2.2.1 (DateParser.parse envW) Parser.init "ieri"
    (Value.date 1) rfl⟩

/-- C9: a parse outcome depends only on the input string (and the fixed external
configuration), never on the instance state, so parsing the same valid string
twice yields two successes with equal stored results, and the second run leaves
the state exactly as the first did. -/
theorem spec_c9 (po : String → Outcome) (st : PState) (s : String) (v : Value)
    (h : po s = Outcome.success v) :
    Parser.run po st s = (⟨some v, true, st.error⟩, Except.ok true) ∧
    Parser.run po (Parser.run po st s).1 s =
      (⟨some v, true, st.error⟩, Except.ok true) ∧
    (∀ st' : PState, (Parser.run po st' s).2 = Except.ok true ∧
      ((Parser.run po st' s).1)._result = some v) := by
  refine ⟨?_, ?_, ?_⟩ <;> simp [Parser.run, h]

/-- Witness for C9 on a closed instance: parsing `roma` twice in a row. -/
theorem spec_c9_witness :
    LocationParser.parse envW "roma" =
      Outcome.success (Value.loc ⟨"roma", "provincia"⟩) ∧
    Parser.run (LocationParser.parse envW)
      (Parser.run (LocationParser.parse envW) Parser.init "roma").1 "roma" =
      (⟨some (Value.loc ⟨"roma", "provincia"⟩), true, none⟩, Except.ok true) :=
  ⟨rfl, (spec_c9 (LocationParser.parse envW) Parser.init "roma"
    (Value.loc ⟨"roma", "provincia"⟩) rfl).2.1⟩

/-- C10: the call form runs `parse` but returns `None` (the unit value),
discarding the boolean status `parse` returns, while leaving the same state as
`parse`; a caller can recover the outcome only from the `status` attribute (or
the instance's truth value, which mirrors it). -/
theorem spec_c10 (po : String → Outcome) (st : PState) (s : String) :
    (Parser.call po st s).1 = (Parser.run po st s).1 ∧
    (Parser.call po st s).2 = (Parser.run po st s).2.map (fun _ => ()) ∧
    (∀ b, (Parser.run po st s).2 = Except.ok b →
      (Parser.call po st s).2 = Except.ok () ∧
      ((Parser.call po st s).1).toBool = b ∧
      ((Parser.call po st s).1).status = b) := by
  refine ⟨rfl, rfl, ?_⟩
  intro b hb
  cases hpo : po s
  case success v =>
    have hbt : b = true := by simpa [Parser.run, hpo] using hb.symm
    subst hbt
    simp [Parser.call, Parser.run, hpo, PState.toBool, Except.map]
  case failure m =>
    have hbt : b = false := by simpa [Parser.run, hpo] using hb.symm
    subst hbt
    simp [Parser.call, Parser.run, hpo, PState.toBool, Except.map]
  case fatal m =>
    exact absurd hb (by simp [Parser.run, hpo])

/-- Witness for C10 on a closed instance: after the call form, the status
attribute carries the outcome that the discarded return value would have had. -/
theorem spec_c10_witness :
    (Parser.run (StatParser.parse envW) Parser.init "totale positivi").2 =
      Except.ok true ∧
    ((Parser.call (StatParser.parse envW) Parser.init "totale positivi").1).toBool =
      true :=
  ⟨rfl, ((spec_c10 (StatParser.parse envW) Parser.init "totale positivi").2.2
    true rfl).2.1⟩

/-- C2: `ComposedParser.make_error_message` is the pass-through of the triggering
child's own message (`error.args[2]`), and consequently the `Failure` message of
an arbitrarily nested composed parser equals, character for character, the
`make_error_message` output of the deepest failing leaf parser in the tree. -/
theorem spec_c2 :
    (∀ (e : Nat × String × String) (s : String),
      ComposedParser.make_error_message e s = e.2.2) ∧
    (∀ (p : PSpec) (s m : String), PSpec.parse p s = Outcome.failure m →
      ∃ conv mk t a, PSpec.Subtree (PSpec.leaf conv mk) p ∧
        conv t = ConvResult.convErr a ∧ m = mk a t ∧
        PSpec.parse (PSpec.leaf conv mk) t = Outcome.failure m) :=
  ⟨fun _ _ => rfl, fun p s m h => PSpec.failure_from_leaf (sizeOf p) p le_rfl s m h⟩

/-- Witness for C2 on a closed instance: a composed parser over one failing leaf
fails with the leaf's own message. -/
theorem spec_c2_witness :
    PSpec.parse pW "s" = Outcome.failure "bad campo" ∧
    (∃ conv mk t a, PSpec.Subtree (PSpec.leaf conv mk) pW ∧
      conv t = ConvResult.convErr a ∧ "bad campo" = mk a t ∧
      PSpec.parse (PSpec.leaf conv mk) t = Outcome.failure "bad campo") :=
  ⟨rfl, spec_c2.2 pW "s" "bad campo" rfl⟩

/-- C5: `LocationParser.parse` succeeds iff the input, after alias substitution,
equals the country name or belongs to the region set or the province set;
membership is tested in the priority order country, region, province, the first
match determining the tier recorded on the `Location`; and on no match `convert`
raises a `ConversionError` carrying the canonical string. -/
theorem spec_c5 (env : Env) (s : String) :
    ((∃ v, LocationParser.parse env s = Outcome.success v) ↔
      (resolve_alias s env.location_aliases = country_constant ∨
       resolve_alias s env.location_aliases ∈ env.regions ∨
       resolve_alias s env.location_aliases ∈ env.provinces)) ∧
    (resolve_alias s env.location_aliases = country_constant →
      LocationParser.parse env s = Outcome.success
        (Value.loc ⟨resolve_alias s env.location_aliases, "stato"⟩)) ∧
    (resolve_alias s env.location_aliases ≠ country_constant →
     resolve_alias s env.location_aliases ∈ env.regions →
      LocationParser.parse env s = Outcome.success
        (Value.loc ⟨resolve_alias s env.location_aliases, "regione"⟩)) ∧
    (resolve_alias s env.location_aliases ≠ country_constant →
     resolve_alias s env.location_aliases ∉ env.regions →
     resolve_alias s env.location_aliases ∈ env.provinces →
      LocationParser.parse env s = Outcome.success
        (Value.loc ⟨resolve_alias s env.location_aliases, "provincia"⟩)) ∧
    (resolve_alias s env.location_aliases ≠ country_constant →
     resolve_alias s env.location_aliases ∉ env.regions →
     resolve_alias s env.location_aliases ∉ env.provinces →
      LocationParser.convert env s =
        ConvResult.convErr (resolve_alias s env.location_aliases) ∧
      LocationParser.parse env s = Outcome.failure
        (LocationParser.make_error_message
          (resolve_alias s env.location_aliases) s)) := by
  by_cases h1 : resolve_alias s env.location_aliases = country_constant
  · refine ⟨?_, ?_, fun hne => absurd h1 hne, fun hne => absurd h1 hne,
      fun hne => absurd h1 hne⟩
    · simp [LocationParser.parse, Parser.parse, LocationParser.convert, h1]
    · intro _
      simp [LocationParser.parse, Parser.parse, LocationParser.convert, h1]
  · by_cases h2 : resolve_alias s env.location_aliases ∈ env.regions
    · refine ⟨?_, fun h => absurd h h1, fun _ _ => ?_,
        fun _ hr => absurd h2 hr, fun _ hr => absurd h2 hr⟩
      · simp [LocationParser.parse, Parser.parse, LocationParser.convert, h1, h2]
      · simp [LocationParser.parse, Parser.parse, LocationParser.convert, h1, h2]
    · by_cases h3 : resolve_alias s env.location_aliases ∈ env.provinces
      · refine ⟨?_, fun h => absurd h h1, fun _ hr => absurd hr h2,
          fun _ _ _ => ?_, fun _ _ hp => absurd h3 hp⟩
        · simp [LocationParser.parse, Parser.parse, LocationParser.convert,
            h1, h2, h3]
        · simp [LocationParser.parse, Parser.parse, LocationParser.convert,
            h1, h2, h3]
      · refine ⟨?_, fun h => absurd h h1, fun _ hr => absurd hr h2,
          fun _ _ hp => absurd hp h3, fun _ _ _ => ⟨?_, ?_⟩⟩
        · simp [LocationParser.parse, Parser.parse, LocationParser.convert,
            h1, h2, h3]
        · simp [LocationParser.convert, h1, h2, h3]
        · simp [LocationParser.parse, Parser.parse, LocationParser.convert,
            h1, h2, h3]

/-- Witness for C5 on a closed instance: `lombardia` is recognized as a region
of the witness catalog. -/
theorem spec_c5_witness :
    resolve_alias "lombardia" envW.location_aliases ≠ country_constant ∧
    resolve_alias "lombardia" envW.location_aliases ∈ envW.regions ∧
    LocationParser.parse envW "lombardia" =
      Outcome.success (Value.loc ⟨"lombardia", "regione"⟩) :=
  ⟨by decide, by decide, (spec_c5 envW "lombardia").2.2.1 (by decide) (by decide)⟩

/-- C6: the report request split substitutes the default date text `oggi`
("today") for an omitted date group, and the trend request split substitutes the
country name for an omitted location group and the fixed epoch date through
`oggi` for an omitted interval group, before any sub-parsing happens. -/
theorem spec_c6 (env : Env) (s loc stat : String) (lopt iopt : Option String) :
    (env.report_request_split s = some (loc, none) →
      ReportRequestParser.split env s = Except.ok [loc, "oggi"]) ∧
    (env.trend_request_split s = some (stat, lopt, iopt) →
      TrendRequestParser.split env s = Except.ok
        [stat, lopt.getD country_constant, iopt.getD "24/02/2020 - oggi"]) := by
  constructor
  · intro h; simp [ReportRequestParser.split, h]
  · intro h
    cases lopt <;> cases iopt <;>
      simp [TrendRequestParser.split, h, country_constant, Option.getD]

/-- Witness for C6 on closed instances with omitted optional groups. -/
theorem spec_c6_witness :
    envW.report_request_split "roma" = some ("roma", none) ∧
    envW.trend_request_split "totale positivi" =
      some ("totale positivi", none, none) ∧
    ReportRequestParser.split envW "roma" = Except.ok ["roma", "oggi"] ∧
    TrendRequestParser.split envW "totale positivi" =
      Except.ok ["totale positivi", "italia", "24/02/2020 - oggi"] :=
  ⟨rfl, rfl,
    (spec_c6 envW "roma" "roma" "totale positivi" none none).1 rfl,
    (spec_c6 envW "totale positivi" "roma" "totale positivi" none none).2 rfl⟩

/-- C7 (amended): on the trend request `totale positivi, marte, ieri - oggi`,
when the statistic catalog accepts `totale_positivi` and the location catalogs
reject `marte`, the parse fails at index 1 with field text `marte` and the
location leaf's message verbatim; the statistic leaf at index 0 is invoked and
succeeds, and only the interval parser at index 2 is never invoked (the outcome
is unchanged under any replacement of it). -/
theorem spec_c7 (env : Env)
    (hsplit : env.trend_request_split "totale positivi, marte, ieri - oggi" =
      some ("totale positivi", some "marte", some "ieri - oggi"))
    (hstat : "totale_positivi" ∈ env.stats)
    (halias : resolve_alias "marte" env.location_aliases = "marte")
    (hreg : "marte" ∉ env.regions) (hprov : "marte" ∉ env.provinces) :
    StatParser.parse env "totale positivi" =
      Outcome.success (Value.str "totale_positivi") ∧
    TrendRequestParser.convert env "totale positivi, marte, ieri - oggi" =
      ConvResult.convErr (1, "marte",
        LocationParser.make_error_message "marte" "marte") ∧
    TrendRequestParser.parse env "totale positivi, marte, ieri - oggi" =
      Outcome.failure (LocationParser.make_error_message "marte" "marte") ∧
    (∀ g : String → Outcome,
      ComposedParser.convert (TrendRequestParser.split env)
        [StatParser.parse env, LocationParser.parse env, g]
        ComposedParser.reduce "totale positivi, marte, ieri - oggi" =
      ConvResult.convErr (1, "marte",
        LocationParser.make_error_message "marte" "marte")) := by
  have hrepl : pyReplaceChar "totale positivi" ' ' '_' = "totale_positivi" := rfl
  have h1 : StatParser.parse env "totale positivi" =
      Outcome.success (Value.str "totale_positivi") := by
    simp [StatParser.parse, Parser.parse, StatParser.convert, hrepl, hstat]
  have hm : ("marte" : String) ≠ country_constant := by decide
  have h2 : LocationParser.parse env "marte" =
      Outcome.failure (LocationParser.make_error_message "marte" "marte") := by
    simp [LocationParser.parse, Parser.parse, LocationParser.convert, halias, hm,
      hreg, hprov]
  have hs : TrendRequestParser.split env "totale positivi, marte, ieri - oggi" =
      Except.ok ["totale positivi", "marte", "ieri - oggi"] := by
    simp [TrendRequestParser.split, hsplit]
  have hall : ∀ g : String → Outcome,
      ComposedParser.convert (TrendRequestParser.split env)
        [StatParser.parse env, LocationParser.parse env, g]
        ComposedParser.reduce "totale positivi, marte, ieri - oggi" =
      ConvResult.convErr (1, "marte",
        LocationParser.make_error_message "marte" "marte") := by
    intro g
    unfold ComposedParser.convert
    rw [hs]
    dsimp only
    rw [if_neg (by simp)]
    simp only [ComposedParser.convertFields, h1, h2]
  have hc : TrendRequestParser.convert env "totale positivi, marte, ieri - oggi" =
      ConvResult.convErr (1, "marte",
        LocationParser.make_error_message "marte" "marte") :=
    hall (IntervalParser.parse env)
  refine ⟨h1, hc, ?_, hall⟩
  simp [TrendRequestParser.parse, Parser.parse, hc,
    ComposedParser.make_error_message]

/-- Witness for C7 on the closed witness configuration. -/
theorem spec_c7_witness :
    envW.trend_request_split "totale positivi, marte, ieri - oggi" =
      some ("totale positivi", some "marte", some "ieri - oggi") ∧
    "totale_positivi" ∈ envW.stats ∧
    resolve_alias "marte" envW.location_aliases = "marte" ∧
    "marte" ∉ envW.regions ∧ "marte" ∉ envW.provinces ∧
    TrendRequestParser.convert envW "totale positivi, marte, ieri - oggi" =
      ConvResult.convErr (1, "marte",
        LocationParser.make_error_message "marte" "marte") :=
  ⟨rfl, by decide, rfl, by decide, by decide,
    (spec_c7 envW rfl (by decide) rfl (by decide) (by decide)).2.1⟩

/-- C7 counterexample: under two configurations with identical location catalogs
(both rejecting `marte`) that differ only in the statistics catalog, the outcome
of the claimed parse differs — with the statistic valid it fails at index 1 with
the location leaf's message, with an empty statistics catalog it fails at index 0
with the statistic leaf's message.  The outcome therefore depends on the
statistic leaf, which refutes the claim that the statistic leaf is never invoked
(and that the error unconditionally carries index 1 and the location message). -/
theorem spec_c7_counterexample :
    envNoStats.regions = envW.regions ∧ envNoStats.provinces = envW.provinces ∧
    envNoStats.location_aliases = envW.location_aliases ∧
    TrendRequestParser.convert envW "totale positivi, marte, ieri - oggi" =
      ConvResult.convErr (1, "marte",
        LocationParser.make_error_message "marte" "marte") ∧
    TrendRequestParser.convert envNoStats "totale positivi, marte, ieri - oggi" =
      ConvResult.convErr (0, "totale positivi",
        StatParser.make_error_message "totale positivi" "totale positivi") :=
  ⟨rfl, rfl, rfl, rfl, rfl⟩

/-- C8 (amended): whenever the trends handler returns a value, the returned next
state is the Trends state on parse success with the rendered photo and on parse
failure with the parser's error rendered; but in the "statistic not available for
this location" condition it renders the available-statistics message and returns
no state at all (Python's bare `return`, i.e. `None`), leaving the conversation
state unchanged instead of returning `TRENDS`. -/
theorem spec_c8 (benv : BotEnv) (text : String) (sent : List Sent)
    (st : Option Nat)
    (h : cb_trends_request benv text = HandlerRes.ret sent st) :
    (st = some TRENDS ∨ st = none) ∧
    (st = none → ∃ stat location interval avail,
      benv.plot_trend stat location interval = PlotResult.keyError avail ∧
      sent = [Sent.msg (notAvailableMessage (benv.str_of stat)
        (benv.str_of location) avail)]) := by
  simp only [cb_trends_request] at h
  split at h
  · exact absurd h (by simp)
  · split at h
    · split at h
      · rename_i stat location interval hres
        split at h
        · rename_i avail hplot
          injection h with h1 h2
          exact ⟨Or.inr h2.symm, fun _ => ⟨stat, location, interval, avail,
            hplot, h1.symm⟩⟩
        · injection h with h1 h2
          exact ⟨Or.inl h2.symm, fun hn => absurd (h2.trans hn) (by simp)⟩
      · exact absurd h (by simp)
    · injection h with h1 h2
      exact ⟨Or.inl h2.symm, fun hn => absurd (h2.trans hn) (by simp)⟩

/-- Witness for C8 on a closed instance: a successful parse and plot returns the
Trends state with the photo. -/
theorem spec_c8_witness :
    cb_trends_request benvOk "totale positivi, italia, ieri - oggi" =
      HandlerRes.ret [Sent.photo "GRAPH" (graphCaption "@bot")] (some TRENDS) ∧
    (some TRENDS = some TRENDS ∨ (some TRENDS : Option Nat) = none) :=
  ⟨rfl, (spec_c8 benvOk "totale positivi, italia, ieri - oggi"
    [Sent.photo "GRAPH" (graphCaption "@bot")] (some TRENDS) rfl).1⟩

/-- C8 counterexample: a concrete configuration and input on which the parse
succeeds and the plot collaborator raises the "statistic not available"
`KeyError` — the handler renders the available-statistics message but returns
`None`, not the Trends state, refuting "returns the Trends state in every
outcome". -/
theorem spec_c8_counterexample :
    cb_trends_request benvKey "totale positivi, italia, ieri - oggi" =
      HandlerRes.ret [Sent.msg (notAvailableMessage "X" "X" ["nuovi_positivi"])]
        none ∧
    (none : Option Nat) ≠ some TRENDS :=
  ⟨rfl, by decide⟩
